import Mathlib

/-!
Shallow embedding of the ts-result-type repository (src/index.ts).

The source exposes a two-variant `Result<T, E>` value built by the `Ok` and
`Err` constructor functions; each constructed object carries the methods
`match`, `getValueOrDefault`, `getValueOrCompute`, `map`, `mapErr`, `and`,
`andThen`, `or`, `orElse` and the boolean fields `isOk` / `isErr`.  We embed
the data model as an inductive type and each method as a Lean function whose
two equations are the bodies of the method in the `Ok` object and in the
`Err` object respectively.  `this` in a method body becomes the receiver's
own constructor applied to its unchanged payload.

For the claims about callback invocation counts we re-embed the
callback-taking methods with callbacks in a call-logging form
(`Traced ev α = List ev × α`): an instrumented callback records one event per
invocation, and the method bodies are the same source bodies with the
callback's effect threaded through.  For the immutability claim we embed the
object layer explicitly: a store of allocated Result payloads, references as
indices, object construction as allocation at the end of the store, and each
method body reading its receiver and either allocating a fresh object or
returning an existing reference — exactly the two things the source bodies
do (every field of the source objects is declared `readonly` and no method
body contains an assignment).
-/

/-- The data model of src/index.ts: a `Result<T, E>` is either `Ok value`
(the object built by the `Ok` constructor function) or `Err error` (the
object built by the `Err` constructor function). -/
inductive Result (T : Type) (E : Type) : Type
  | Ok (value : T) : Result T E
  | Err (error : E) : Result T E
deriving DecidableEq, Repr

namespace Result

/-- `match` method (named `match'` because `match` is reserved in Lean).
`Ok.match(ok, _)` returns `ok(value)`; `Err.match(_, err)` returns
`err(error)`. -/
def match' {T E U : Type} : Result T E → (T → U) → (E → U) → U
  | Ok value, ok, _ => ok value
  | Err error, _, err => err error

/-- `getValueOrDefault` method: `Ok` returns `value`, ignoring the argument;
`Err` returns `defaultValue`. -/
def getValueOrDefault {T E : Type} : Result T E → T → T
  | Ok value, _ => value
  | Err _, defaultValue => defaultValue

/-- `getValueOrCompute` method: `Ok` returns `value`, ignoring `computeFn`;
`Err` returns `computeFn(error)`. -/
def getValueOrCompute {T E : Type} : Result T E → (E → T) → T
  | Ok value, _ => value
  | Err error, computeFn => computeFn error

/-- `map` method: `Ok.map(fn)` returns `Ok(fn(value))`; `Err.map(_)` returns
`this`, the receiver itself — the same failure payload. -/
def map {T E U : Type} : Result T E → (T → U) → Result U E
  | Ok value, fn => Ok (fn value)
  | Err error, _ => Err error

/-- `mapErr` method: `Ok.mapErr(_)` returns `this`, the receiver itself;
`Err.mapErr(fn)` returns `Err(fn(error))`. -/
def mapErr {T E F : Type} : Result T E → (E → F) → Result T F
  | Ok value, _ => Ok value
  | Err error, fn => Err (fn error)

/-- `and` method: `Ok.and(result)` returns `result`; `Err.and(_)` returns
`this`. -/
def and {T E U : Type} : Result T E → Result U E → Result U E
  | Ok _, result => result
  | Err error, _ => Err error

/-- `andThen` method: `Ok.andThen(fn)` returns `fn(value)`; `Err.andThen(_)`
returns `this`. -/
def andThen {T E U : Type} : Result T E → (T → Result U E) → Result U E
  | Ok value, fn => fn value
  | Err error, _ => Err error

/-- `or` method: `Ok.or(_)` returns `this`; `Err.or(result)` returns
`result`. -/
def or {T E F : Type} : Result T E → Result T F → Result T F
  | Ok value, _ => Ok value
  | Err _, result => result

/-- `orElse` method: `Ok.orElse(_)` returns `this`; `Err.orElse(fn)` returns
`fn(error)`. -/
def orElse {T E F : Type} : Result T E → (E → Result T F) → Result T F
  | Ok value, _ => Ok value
  | Err error, fn => fn error

/-- `isOk` field: literally `true` in the `Ok` object, `false` in the `Err`
object. -/
def isOk {T E : Type} : Result T E → Bool
  | Ok _ => true
  | Err _ => false

/-- `isErr` field: literally `false` in the `Ok` object, `true` in the `Err`
object. -/
def isErr {T E : Type} : Result T E → Bool
  | Ok _ => false
  | Err _ => true

/-- A computation together with the list of callback-invocation events it
performed, in order.  An instrumented callback of type `α → Traced ev β`
records one event per invocation. -/
abbrev Traced (ev α : Type) : Type := List ev × α

/-- Call-logging embedding of `match`: the body of `Ok.match` is the single
call `ok(value)`, so its trace is that call's trace; dually for `Err`. -/
def matchT {T E U ev : Type} :
    Result T E → (T → Traced ev U) → (E → Traced ev U) → Traced ev U
  | Ok value, ok, _ => ok value
  | Err error, _, err => err error

/-- Call-logging embedding of `getValueOrCompute`: `Ok` performs no call and
returns `value`; `Err` performs the single call `computeFn(error)`. -/
def getValueOrComputeT {T E ev : Type} :
    Result T E → (E → Traced ev T) → Traced ev T
  | Ok value, _ => ([], value)
  | Err error, computeFn => computeFn error

/-- Call-logging embedding of `map`: `Ok.map` performs the single call
`fn(value)` and wraps its result in `Ok`; `Err.map` performs no call and
returns the receiver. -/
def mapT {T E U ev : Type} :
    Result T E → (T → Traced ev U) → Traced ev (Result U E)
  | Ok value, fn => ((fn value).1, Ok (fn value).2)
  | Err error, _ => ([], Err error)

/-- Call-logging embedding of `mapErr`: `Ok.mapErr` performs no call;
`Err.mapErr` performs the single call `fn(error)` and wraps its result in
`Err`. -/
def mapErrT {T E F ev : Type} :
    Result T E → (E → Traced ev F) → Traced ev (Result T F)
  | Ok value, _ => ([], Ok value)
  | Err error, fn => ((fn error).1, Err (fn error).2)

/-- Call-logging embedding of `andThen`: `Ok.andThen` is the single call
`fn(value)`; `Err.andThen` performs no call and returns the receiver. -/
def andThenT {T E U ev : Type} :
    Result T E → (T → Traced ev (Result U E)) → Traced ev (Result U E)
  | Ok value, fn => fn value
  | Err error, _ => ([], Err error)

/-- Call-logging embedding of `orElse`: `Ok.orElse` performs no call and
returns the receiver; `Err.orElse` is the single call `fn(error)`. -/
def orElseT {T E F ev : Type} :
    Result T E → (E → Traced ev (Result T F)) → Traced ev (Result T F)
  | Ok value, _ => ([], Ok value)
  | Err error, fn => fn error

end Result

/-- Object-store embedding for the mutability question: the heap is a list of
allocated Result objects, each recorded by its payload (`Sum.inl value` for
an object built by `Ok`, `Sum.inr error` for one built by `Err`); a Result
instance is a reference, i.e. an index into the store. -/
abbrev Store (T E : Type) : Type := List (T ⊕ E)

namespace Store

/-- Object construction: the source's `Ok`/`Err` constructor functions each
build one fresh object literal, i.e. allocate one new cell at the end of the
store and return a reference to it. -/
def alloc {T E : Type} (s : Store T E) (payload : T ⊕ E) : Store T E × Nat :=
  (s ++ [payload], s.length)

/-- The `Ok(value)` constructor in the store model. -/
def mkOk {T E : Type} (s : Store T E) (value : T) : Store T E × Nat :=
  alloc s (Sum.inl value)

/-- The `Err(error)` constructor in the store model. -/
def mkErr {T E : Type} (s : Store T E) (error : E) : Store T E × Nat :=
  alloc s (Sum.inr error)

/-- `match` in the store model: dispatch on the receiver's payload; the pure
callbacks allocate nothing, so the store comes back unchanged.  A dangling
reference (never produced by the API) yields `none`. -/
def matchS {T E U : Type} (s : Store T E) (self : Nat)
    (ok : T → U) (err : E → U) : Store T E × Option U :=
  match s[self]? with
  | some (Sum.inl value) => (s, some (ok value))
  | some (Sum.inr error) => (s, some (err error))
  | none => (s, none)

/-- `getValueOrDefault` in the store model: no allocation on either path. -/
def getValueOrDefaultS {T E : Type} (s : Store T E) (self : Nat)
    (defaultValue : T) : Store T E × Option T :=
  match s[self]? with
  | some (Sum.inl value) => (s, some value)
  | some (Sum.inr _) => (s, some defaultValue)
  | none => (s, none)

/-- `getValueOrCompute` in the store model: no allocation on either path. -/
def getValueOrComputeS {T E : Type} (s : Store T E) (self : Nat)
    (computeFn : E → T) : Store T E × Option T :=
  match s[self]? with
  | some (Sum.inl value) => (s, some value)
  | some (Sum.inr error) => (s, some (computeFn error))
  | none => (s, none)

/-- `map` in the store model: `Ok.map` builds the fresh object
`Ok(fn(value))`; `Err.map` returns `this` — the same reference, no store
change. -/
def mapS {T E : Type} (s : Store T E) (self : Nat) (fn : T → T) :
    Store T E × Nat :=
  match s[self]? with
  | some (Sum.inl value) => mkOk s (fn value)
  | _ => (s, self)

/-- `mapErr` in the store model: `Ok.mapErr` returns `this`; `Err.mapErr`
builds the fresh object `Err(fn(error))`. -/
def mapErrS {T E : Type} (s : Store T E) (self : Nat) (fn : E → E) :
    Store T E × Nat :=
  match s[self]? with
  | some (Sum.inr error) => mkErr s (fn error)
  | _ => (s, self)

/-- `and` in the store model: `Ok.and(result)` returns the argument
reference; `Err.and` returns `this`.  Neither path allocates. -/
def andS {T E : Type} (s : Store T E) (self : Nat) (result : Nat) :
    Store T E × Nat :=
  match s[self]? with
  | some (Sum.inl _) => (s, result)
  | _ => (s, self)

/-- `andThen` in the store model: `Ok.andThen(fn)` returns `fn(value)`
directly — the callback may itself allocate, so it is store-passing;
`Err.andThen` returns `this`. -/
def andThenS {T E : Type} (s : Store T E) (self : Nat)
    (fn : Store T E → T → Store T E × Nat) : Store T E × Nat :=
  match s[self]? with
  | some (Sum.inl value) => fn s value
  | _ => (s, self)

/-- `or` in the store model: `Ok.or` returns `this`; `Err.or(result)`
returns the argument reference.  Neither path allocates. -/
def orS {T E : Type} (s : Store T E) (self : Nat) (result : Nat) :
    Store T E × Nat :=
  match s[self]? with
  | some (Sum.inr _) => (s, result)
  | _ => (s, self)

/-- `orElse` in the store model: `Ok.orElse` returns `this`;
`Err.orElse(fn)` returns `fn(error)` directly, store-passing. -/
def orElseS {T E : Type} (s : Store T E) (self : Nat)
    (fn : Store T E → E → Store T E × Nat) : Store T E × Nat :=
  match s[self]? with
  | some (Sum.inr error) => fn s error
  | _ => (s, self)

/-- A store evolution preserves every already-allocated object: each
reference valid before still resolves to the very same payload after. -/
def Preserved {T E : Type} (s s' : Store T E) : Prop :=
  ∀ i, i < s.length → s'[i]? = s[i]?

theorem Preserved.refl {T E : Type} (s : Store T E) : Preserved s s :=
  fun _ _ => rfl

theorem Preserved.of_alloc {T E : Type} (s : Store T E) (p : T ⊕ E) :
    Preserved s (alloc s p).1 :=
  fun _ hi => List.getElem?_append_left hi

end Store

namespace Store

theorem Preserved.lookup {T E : Type} {s s' : Store T E} (h : Preserved s s')
    {i : Nat} (hi : i < s.length) : s'[i]? = s[i]? :=
  h i hi

theorem matchS_preserved {T E U : Type} (s : Store T E) (self : Nat)
    (ok : T → U) (err : E → U) : Preserved s (matchS s self ok err).1 := by
  unfold matchS
  cases hp : s[self]? with
  | none => exact Preserved.refl s
  | some p => cases p <;> exact Preserved.refl s

theorem getValueOrDefaultS_preserved {T E : Type} (s : Store T E) (self : Nat)
    (d : T) : Preserved s (getValueOrDefaultS s self d).1 := by
  unfold getValueOrDefaultS
  cases hp : s[self]? with
  | none => exact Preserved.refl s
  | some p => cases p <;> exact Preserved.refl s

theorem getValueOrComputeS_preserved {T E : Type} (s : Store T E) (self : Nat)
    (c : E → T) : Preserved s (getValueOrComputeS s self c).1 := by
  unfold getValueOrComputeS
  cases hp : s[self]? with
  | none => exact Preserved.refl s
  | some p => cases p <;> exact Preserved.refl s

theorem mapS_preserved {T E : Type} (s : Store T E) (self : Nat) (fn : T → T) :
    Preserved s (mapS s self fn).1 := by
  unfold mapS
  cases hp : s[self]? with
  | none => exact Preserved.refl s
  | some p =>
      cases p with
      | inl value => exact Preserved.of_alloc s (Sum.inl (fn value))
      | inr error => exact Preserved.refl s

theorem mapErrS_preserved {T E : Type} (s : Store T E) (self : Nat)
    (fn : E → E) : Preserved s (mapErrS s self fn).1 := by
  unfold mapErrS
  cases hp : s[self]? with
  | none => exact Preserved.refl s
  | some p =>
      cases p with
      | inl value => exact Preserved.refl s
      | inr error => exact Preserved.of_alloc s (Sum.inr (fn error))

theorem andS_preserved {T E : Type} (s : Store T E) (self other : Nat) :
    Preserved s (andS s self other).1 := by
  unfold andS
  cases hp : s[self]? with
  | none => exact Preserved.refl s
  | some p => cases p <;> exact Preserved.refl s

theorem andThenS_preserved {T E : Type} (s : Store T E) (self : Nat)
    (fn : Store T E → T → Store T E × Nat)
    (hfn : ∀ s' t, Preserved s' (fn s' t).1) :
    Preserved s (andThenS s self fn).1 := by
  unfold andThenS
  cases hp : s[self]? with
  | none => exact Preserved.refl s
  | some p =>
      cases p with
      | inl value => exact hfn s value
      | inr error => exact Preserved.refl s

theorem orS_preserved {T E : Type} (s : Store T E) (self other : Nat) :
    Preserved s (orS s self other).1 := by
  unfold orS
  cases hp : s[self]? with
  | none => exact Preserved.refl s
  | some p => cases p <;> exact Preserved.refl s

theorem orElseS_preserved {T E : Type} (s : Store T E) (self : Nat)
    (fn : Store T E → E → Store T E × Nat)
    (hfn : ∀ s' e, Preserved s' (fn s' e).1) :
    Preserved s (orElseS s self fn).1 := by
  unfold orElseS
  cases hp : s[self]? with
  | none => exact Preserved.refl s
  | some p =>
      cases p with
      | inl value => exact Preserved.refl s
      | inr error => exact hfn s error

end Store

namespace Result

/-- C1: `Ok(v).match(f, g)` returns `f(v)` and `Err(e).match(f, g)` returns
`g(e)`; under the call-logging embedding, matching `Ok v` produces exactly
the one-event log `[Sum.inl v]` (the success callback invoked exactly once,
with `v`, and the failure callback never), and matching `Err e` produces
exactly `[Sum.inr e]`. -/
theorem c1_match_dispatch {T E U : Type} (v : T) (e : E) (f : T → U) (g : E → U) :
    (Ok v : Result T E).match' f g = f v
  ∧ (Err e : Result T E).match' f g = g e
  ∧ matchT (Ok v : Result T E)
      (fun t => ([Sum.inl t], f t)) (fun x => ([Sum.inr x], g x))
      = ([Sum.inl v], f v)
  ∧ matchT (Err e : Result T E)
      (fun t => ([Sum.inl t], f t)) (fun x => ([Sum.inr x], g x))
      = ([Sum.inr e], g e) :=
  ⟨rfl, rfl, rfl, rfl⟩

/-- C2: `Ok(v).map(f) = Ok(f(v))` and `Err(e).mapErr(g) = Err(g(e))`;
`Err(e).map(f) = Err e` and `Ok(v).mapErr(g) = Ok v` with, under the
call-logging embedding, an empty invocation log (the callback is never
invoked on the opposite variant); and neither `map` nor `mapErr` ever
changes which variant is active. -/
theorem c2_map_mapErr {T E U F : Type} (v : T) (e : E) (f : T → U) (g : E → F)
    (r : Result T E) :
    (Ok v : Result T E).map f = Ok (f v)
  ∧ (Err e : Result T E).map f = Err e
  ∧ (Err e : Result T E).mapErr g = Err (g e)
  ∧ (Ok v : Result T E).mapErr g = Ok v
  ∧ mapT (Err e : Result T E) (fun t => ([t], f t)) = ([], Err e)
  ∧ mapErrT (Ok v : Result T E) (fun x => ([x], g x)) = ([], Ok v)
  ∧ (r.map f).isOk = r.isOk ∧ (r.map f).isErr = r.isErr
  ∧ (r.mapErr g).isOk = r.isOk ∧ (r.mapErr g).isErr = r.isErr := by
  refine ⟨rfl, rfl, rfl, rfl, rfl, rfl, ?_, ?_, ?_, ?_⟩ <;> cases r <;> rfl

/-- C3: `Ok(v).and(r) = r`, `Ok(v).andThen(f) = f(v)`; `Err(e).and(r)` and
`Err(e).andThen(f)` are the failure unchanged (`Err e`), and under the
call-logging embedding `Err(e).andThen` has an empty invocation log: `f` is
never invoked on the failure path. -/
theorem c3_and_andThen {T E U : Type} (v : T) (e : E) (r : Result U E)
    (f : T → Result U E) :
    (Ok v : Result T E).and r = r
  ∧ (Err e : Result T E).and r = Err e
  ∧ (Ok v : Result T E).andThen f = f v
  ∧ (Err e : Result T E).andThen f = Err e
  ∧ andThenT (Err e : Result T E) (fun t => ([t], f t)) = ([], Err e) :=
  ⟨rfl, rfl, rfl, rfl, rfl⟩

/-- C4: `Ok(v).or(r)` and `Ok(v).orElse(f)` are the success unchanged
(`Ok v`), and under the call-logging embedding `Ok(v).orElse` has an empty
invocation log: `f` is never invoked on the success path; `Err(e).or(r) = r`
and `Err(e).orElse(f) = f(e)`. -/
theorem c4_or_orElse {T E F : Type} (v : T) (e : E) (r : Result T F)
    (f : E → Result T F) :
    (Ok v : Result T E).or r = Ok v
  ∧ (Err e : Result T E).or r = r
  ∧ (Ok v : Result T E).orElse f = Ok v
  ∧ (Err e : Result T E).orElse f = f e
  ∧ orElseT (Ok v : Result T E) (fun x => ([x], f x)) = ([], Ok v) :=
  ⟨rfl, rfl, rfl, rfl, rfl⟩

/-- C5: associativity of monadic chaining:
`r.andThen(f).andThen(g) = r.andThen(x => f(x).andThen(g))` for every
Result `r` and Result-returning `f`, `g`. -/
theorem c5_andThen_assoc {T E U W : Type} (r : Result T E)
    (f : T → Result U E) (g : U → Result W E) :
    (r.andThen f).andThen g = r.andThen fun x => (f x).andThen g := by
  cases r <;> rfl

/-- C6: `Ok(v).getValueOrDefault(d)` returns the contained value `v`,
ignoring the default, and `Err(e).getValueOrDefault(d)` returns `d`.  The
operation takes no callback, so there is no callback it could invoke. -/
theorem c6_getValueOrDefault {T E : Type} (v : T) (e : E) (d : T) :
    (Ok v : Result T E).getValueOrDefault d = v
  ∧ (Err e : Result T E).getValueOrDefault d = d :=
  ⟨rfl, rfl⟩

/-- C7: `Ok(v).getValueOrCompute(c)` returns `v` with, under the
call-logging embedding, an empty invocation log (`c` is never invoked);
`Err(e).getValueOrCompute(c)` returns `c(e)`, and its log is exactly `[e]`:
`c` is invoked exactly once — hence at most once — only on the failure
path. -/
theorem c7_getValueOrCompute {T E : Type} (v : T) (e : E) (c : E → T) :
    (Ok v : Result T E).getValueOrCompute c = v
  ∧ (Err e : Result T E).getValueOrCompute c = c e
  ∧ getValueOrComputeT (Ok v : Result T E) (fun x => ([x], c x)) = ([], v)
  ∧ getValueOrComputeT (Err e : Result T E) (fun x => ([x], c x)) = ([e], c e) :=
  ⟨rfl, rfl, rfl, rfl⟩

/-- C8: `Ok(v).isOk = true`, `Ok(v).isErr = false`, `Err(e).isErr = true`,
`Err(e).isOk = false`, and on every constructible Result the `isErr` flag is
the boolean complement of the `isOk` flag. -/
theorem c8_isOk_isErr {T E : Type} (v : T) (e : E) (r : Result T E) :
    (Ok v : Result T E).isOk = true
  ∧ (Ok v : Result T E).isErr = false
  ∧ (Err e : Result T E).isErr = true
  ∧ (Err e : Result T E).isOk = false
  ∧ r.isErr = !r.isOk := by
  refine ⟨rfl, rfl, rfl, rfl, ?_⟩
  cases r <;> rfl

/-- C9: no operation mutates an existing Result instance.  In the
object-store embedding, every combinator of the API — `match`,
`getValueOrDefault`, `getValueOrCompute`, `map`, `mapErr`, `and`, `andThen`,
`or`, `orElse` — evolves the store so that every previously allocated
instance still resolves to the very same payload (same variant, same
value), provided the Result-returning callbacks of `andThen`/`orElse`
themselves only allocate (as every caller of this API can): observing any
pre-existing Result afterwards yields exactly what it yielded before. -/
theorem c9_no_mutation {T E U : Type} (s : Store T E) (self other : Nat)
    (ok : T → U) (err : E → U) (d : T) (c : E → T) (f : T → T) (g : E → E)
    (fn : Store T E → T → Store T E × Nat)
    (gn : Store T E → E → Store T E × Nat)
    (hfn : ∀ s' t, Store.Preserved s' (fn s' t).1)
    (hgn : ∀ s' x, Store.Preserved s' (gn s' x).1) :
    Store.Preserved s (Store.matchS s self ok err).1
  ∧ Store.Preserved s (Store.getValueOrDefaultS s self d).1
  ∧ Store.Preserved s (Store.getValueOrComputeS s self c).1
  ∧ Store.Preserved s (Store.mapS s self f).1
  ∧ Store.Preserved s (Store.mapErrS s self g).1
  ∧ Store.Preserved s (Store.andS s self other).1
  ∧ Store.Preserved s (Store.andThenS s self fn).1
  ∧ Store.Preserved s (Store.orS s self other).1
  ∧ Store.Preserved s (Store.orElseS s self gn).1 :=
  ⟨Store.matchS_preserved s self ok err,
   Store.getValueOrDefaultS_preserved s self d,
   Store.getValueOrComputeS_preserved s self c,
   Store.mapS_preserved s self f,
   Store.mapErrS_preserved s self g,
   Store.andS_preserved s self other,
   Store.andThenS_preserved s self fn hfn,
   Store.orS_preserved s self other,
   Store.orElseS_preserved s self gn hgn⟩

/-- Witness for C9 at a concrete store `[Ok 0, Err 1]`, receiver the `Ok`
object at index 0 (and the `Err` object at index 1 for the failure-path
operations), with `andThen`/`orElse` callbacks that allocate one fresh
object: both pre-existing objects keep their payloads across every
operation. -/
theorem c9_no_mutation_witness :
    (Store.mapS [Sum.inl 0, Sum.inr 1] 0 Nat.succ).1[0]?
      = some (Sum.inl 0 : Nat ⊕ Nat)
  ∧ (Store.mapS [Sum.inl 0, Sum.inr 1] 0 Nat.succ).1[1]?
      = some (Sum.inr 1 : Nat ⊕ Nat)
  ∧ (Store.mapErrS [Sum.inl 0, Sum.inr 1] 1 Nat.succ).1[1]?
      = some (Sum.inr 1 : Nat ⊕ Nat)
  ∧ (Store.andThenS [Sum.inl 0, Sum.inr 1] 0 (fun s' t => Store.mkOk s' t)).1[0]?
      = some (Sum.inl 0 : Nat ⊕ Nat)
  ∧ (Store.orElseS [Sum.inl 0, Sum.inr 1] 1 (fun s' x => Store.mkErr s' x)).1[1]?
      = some (Sum.inr 1 : Nat ⊕ Nat) := by
  have h0 := c9_no_mutation (U := Nat)
    [Sum.inl 0, Sum.inr 1] 0 1 id id 0 id Nat.succ Nat.succ
    (fun s' t => Store.mkOk s' t) (fun s' x => Store.mkErr s' x)
    (fun s' t => Store.Preserved.of_alloc s' (Sum.inl t))
    (fun s' x => Store.Preserved.of_alloc s' (Sum.inr x))
  have h1 := c9_no_mutation (U := Nat)
    [Sum.inl 0, Sum.inr 1] 1 0 id id 0 id Nat.succ Nat.succ
    (fun s' t => Store.mkOk s' t) (fun s' x => Store.mkErr s' x)
    (fun s' t => Store.Preserved.of_alloc s' (Sum.inl t))
    (fun s' x => Store.Preserved.of_alloc s' (Sum.inr x))
  refine ⟨(h0.2.2.2.1 0 (by decide)).trans rfl,
          (h0.2.2.2.1 1 (by decide)).trans rfl,
          (h1.2.2.2.2.1 1 (by decide)).trans rfl,
          (h0.2.2.2.2.2.2.1 0 (by decide)).trans rfl,
          (h1.2.2.2.2.2.2.2.2 1 (by decide)).trans rfl⟩

/-- C10: for every Result `r` and function `f`, `r.map(f)` coincides with
`r.andThen(x => Ok(f(x)))` — `map` is the non-variant-changing
specialization of `andThen`. -/
theorem c10_map_via_andThen {T E U : Type} (r : Result T E) (f : T → U) :
    r.map f = r.andThen fun x => Ok (f x) := by
  cases r <;> rfl

end Result
